import Mathlib

/-! Verification development for the Axiom-Protocol bootstrap-node agents.

Shallow embedding of the two stateful agents:
  * openclaw/security_guardian_agent.py  (SecurityGuardian)
  * openclaw/network_booster_agent.py    (NetworkBooster)

Python floats are modelled as rationals (ℚ), timestamps as rationals
counting seconds, counters as ℕ.  Python dicts (insertion-ordered) are
modelled as association lists, Python sets as duplicate-free lists where
only membership matters.  Printing is elided; everything else follows the
source line by line.
-/

namespace Axiom

/-- Severity levels, mirroring `class ThreatLevel(Enum)`. -/
inductive ThreatLevel
  | safe
  | caution
  | warning
  | critical
  | blocked
  deriving DecidableEq, Repr

/-- Attack categories, mirroring `class AttackType(Enum)`. -/
inductive AttackType
  | sybil
  | dos
  | eclipse
  | selfishMining
  | vdfManipulation
  | rateLimit
  | unknown
  deriving DecidableEq, Repr

/-- Mirror of `@dataclass PeerReputation`. -/
structure PeerReputation where
  peer_id : String
  ip_address : String
  trust_score : ℚ := 0.5
  successful_blocks : ℕ := 0
  failed_validations : ℕ := 0
  dos_attempts : ℕ := 0
  sybil_connections : ℕ := 0
  first_seen : ℚ
  last_seen : ℚ
  blocked : Bool := false
  block_reason : String := ""
  block_until : Option ℚ := none
  deriving DecidableEq, Repr

/-- Mirror of `@dataclass SecurityEvent`. -/
structure SecurityEvent where
  timestamp : ℚ
  event_type : AttackType
  peer_id : String
  severity : ThreatLevel
  description : String
  action_taken : String
  deriving DecidableEq, Repr

/-- The mutable state of a `SecurityGuardian` instance together with the
three configuration values read in `__init__`. -/
structure GuardianState where
  dos_threshold : ℕ
  min_trust_score : ℚ
  blacklist_duration_minutes : ℚ
  peer_reputation : List (String × PeerReputation) := []
  blocked_ips : List String := []
  security_events : List SecurityEvent := []
  connection_attempts : List (String × List ℚ) := []
  deriving DecidableEq, Repr

/-- Association-list lookup (Python `d[k]` / `k in d`). -/
def alookup {β : Type} (m : List (String × β)) (k : String) : Option β :=
  (m.find? (fun kv => kv.1 = k)).map Prod.snd

/-- Pointwise update of the value stored at key `k` (no-op if absent). -/
def aupdate {β : Type} (m : List (String × β)) (k : String) (f : β → β) :
    List (String × β) :=
  m.map (fun kv => if kv.1 = k then (kv.1, f kv.2) else kv)

/-- Python `set.add`: only membership matters, keep first-insertion order. -/
def insertSet (l : List String) (x : String) : List String :=
  if x ∈ l then l else l ++ [x]

/-- Mirrors `SecurityGuardian.register_peer` — idempotent insert with the dataclass
defaults (`trust_score = 0.5`, counters 0, both timestamps `utcnow`). -/
def register_peer (now : ℚ) (s : GuardianState) (pid ip : String) :
    GuardianState :=
  if (alookup s.peer_reputation pid).isSome then s
  else
    { s with
      peer_reputation :=
        s.peer_reputation ++
          [(pid, { peer_id := pid, ip_address := ip,
                   first_seen := now, last_seen := now })] }

/-- Mirrors `SecurityGuardian.record_successful_block`. -/
def record_successful_block (now : ℚ) (s : GuardianState) (pid : String) :
    GuardianState :=
  if (alookup s.peer_reputation pid).isSome then
    { s with
      peer_reputation :=
        aupdate s.peer_reputation pid (fun r =>
          { r with successful_blocks := r.successful_blocks + 1,
                   last_seen := now }) }
  else s

/-- Mirrors `SecurityGuardian.record_failed_validation`.  The source increments the
failure counter and multiplies `trust_score` by `0.8`; it makes no call to
`datetime.utcnow()` and leaves `last_seen` untouched. -/
def record_failed_validation (s : GuardianState) (pid : String) :
    GuardianState :=
  if (alookup s.peer_reputation pid).isSome then
    { s with
      peer_reputation :=
        aupdate s.peer_reputation pid (fun r =>
          { r with failed_validations := r.failed_validations + 1,
                   trust_score := r.trust_score * 0.8 }) }
  else s

/-- Mirrors `SecurityGuardian.block_ip`.  The body only does
`self.blocked_ips.add(ip)` (plus a print); `reason` and `duration` are
never stored. -/
def block_ip (s : GuardianState) (ip : String) (reason : String)
    (duration_minutes : ℚ) : GuardianState :=
  { s with blocked_ips := insertSet s.blocked_ips ip }

/-- Mirrors `SecurityGuardian.record_connection_attempt` (`defaultdict(list)`). -/
def record_connection_attempt (now : ℚ) (s : GuardianState) (ip : String) :
    GuardianState :=
  if (alookup s.connection_attempts ip).isSome then
    { s with
      connection_attempts :=
        aupdate s.connection_attempts ip (fun ts => ts ++ [now]) }
  else
    { s with connection_attempts := s.connection_attempts ++ [(ip, [now])] }

/-- The SecurityEvent built in `detect_dos_attacks`. -/
def dosEvent (now : ℚ) (ip : String) (n : ℕ) : SecurityEvent :=
  { timestamp := now, event_type := .dos, peer_id := "ip_" ++ ip,
    severity := .critical,
    description := "DoS attempt: " ++ toString n ++ " requests in 60s",
    action_taken := "BLOCKED" }

/-- Loop body of `detect_dos_attacks` for one `(ip, timestamps)` entry:
prune to the 60-second window, then block and record one event when the
remaining count exceeds the threshold. -/
def dosStep (now : ℚ) (s : GuardianState) (entry : String × List ℚ) :
    GuardianState :=
  let recent := entry.2.filter (fun ts => now - ts < 60)
  let s1 := { s with
    connection_attempts :=
      aupdate s.connection_attempts entry.1 (fun _ => recent) }
  if recent.length > s1.dos_threshold then
    let s2 := block_ip s1 entry.1 "DoS attack" s1.blacklist_duration_minutes
    { s2 with
      security_events :=
        s2.security_events ++ [dosEvent now entry.1 recent.length] }
  else s1

/-- Mirrors `SecurityGuardian.detect_dos_attacks`: iterate over a snapshot of
`connection_attempts.items()`. -/
def detect_dos_attacks (now : ℚ) (s : GuardianState) : GuardianState :=
  s.connection_attempts.foldl (dosStep now) s

/-- The SecurityEvent built in `detect_sybil_attacks`. -/
def sybilEvent (now : ℚ) (ip : String) (n : ℕ) : SecurityEvent :=
  { timestamp := now, event_type := .sybil, peer_id := ip,
    severity := .warning,
    description := "Sybil attack: " ++ toString n ++
      " suspicious peers from " ++ ip,
    action_taken := "MONITORED" }

/-- Keys of a Python dict in first-insertion order (`seen` accumulates the
keys already produced). -/
def keysInOrder : List String → List String → List String
  | [], _ => []
  | a :: rest, seen =>
    if a ∈ seen then keysInOrder rest seen
    else a :: keysInOrder rest (a :: seen)

/-- Membership test of the `suspicious_peers` list for the group of `ip`:
registered at `ip` and with trust below the configured minimum. -/
def suspiciousOn (minTrust : ℚ) (ip : String)
    (kv : String × PeerReputation) : Bool :=
  kv.2.ip_address = ip && kv.2.trust_score < minTrust

/-- Loop body of `detect_sybil_attacks` for one IP group: when at least 5
suspicious peers share the IP, append one warning event and halve the
trust of exactly those peers. -/
def sybilStep (now : ℚ) (s : GuardianState) (ip : String) : GuardianState :=
  let susp := s.peer_reputation.filter (suspiciousOn s.min_trust_score ip)
  if 5 ≤ susp.length then
    { s with
      security_events :=
        s.security_events ++ [sybilEvent now ip susp.length],
      peer_reputation :=
        s.peer_reputation.map (fun kv =>
          if suspiciousOn s.min_trust_score ip kv then
            (kv.1, { kv.2 with trust_score := kv.2.trust_score * 0.5 })
          else kv) }
  else s

/-- Mirrors `SecurityGuardian.detect_sybil_attacks`: group peers by `ip_address`
(dict order = first occurrence), then run the per-IP body. -/
def detect_sybil_attacks (now : ℚ) (s : GuardianState) : GuardianState :=
  (keysInOrder (s.peer_reputation.map (fun kv => kv.2.ip_address)) []).foldl
    (sybilStep now) s

/-- The SecurityEvent built in `detect_eclipse_attacks`. -/
def eclipseEvent (now : ℚ) (pid : String) : SecurityEvent :=
  { timestamp := now, event_type := .eclipse, peer_id := pid,
    severity := .caution,
    description := "Suspicious: Peer showing abnormal validation patterns",
    action_taken := "MONITORED" }

/-- The eclipse heuristic: over 1000 successes and zero failures. -/
def eclipseCond (r : PeerReputation) : Bool :=
  1000 < r.successful_blocks && r.failed_validations = 0

/-- Mirrors `SecurityGuardian.detect_eclipse_attacks`. -/
def detect_eclipse_attacks (now : ℚ) (s : GuardianState) : GuardianState :=
  s.peer_reputation.foldl (fun acc kv =>
    if eclipseCond kv.2 then
      { acc with
        security_events :=
          acc.security_events ++ [eclipseEvent now kv.1],
        peer_reputation :=
          aupdate acc.peer_reputation kv.1 (fun r =>
            { r with trust_score := r.trust_score * 0.8 }) }
    else acc) s

/-- The VDF timing heuristic: more than 10 successes and an average block
interval below 1700 seconds.  (The event text interpolates the average;
the string formatting is elided.) -/
def vdfCond (now : ℚ) (r : PeerReputation) : Bool :=
  10 < r.successful_blocks &&
    (now - r.first_seen) / (r.successful_blocks : ℚ) < 1700

/-- The SecurityEvent built in `detect_vdf_manipulation`. -/
def vdfEvent (now : ℚ) (pid : String) : SecurityEvent :=
  { timestamp := now, event_type := .vdfManipulation, peer_id := pid,
    severity := .warning,
    description := "Block time too fast (expected 1800s)",
    action_taken := "INVESTIGATED" }

/-- Mirrors `SecurityGuardian.detect_vdf_manipulation`. -/
def detect_vdf_manipulation (now : ℚ) (s : GuardianState) : GuardianState :=
  s.peer_reputation.foldl (fun acc kv =>
    if vdfCond now kv.2 then
      { acc with
        security_events :=
          acc.security_events ++ [vdfEvent now kv.1],
        peer_reputation :=
          aupdate acc.peer_reputation kv.1 (fun r =>
            { r with trust_score := r.trust_score * 0.6 }) }
    else acc) s

/-- Mirrors `max(0.0, min(1.0, x))`. -/
def clamp01 (x : ℚ) : ℚ := max 0 (min 1 x)

/-- Per-peer body of `update_peer_reputation`: blocked peers only check
unblock expiry; others recompute the score from the counters (when any
interactions exist) and then apply the idle decay. -/
def updateReputationPeer (now : ℚ) (r : PeerReputation) : PeerReputation :=
  if r.blocked then
    match r.block_until with
    | some bu =>
      if now > bu then
        { r with blocked := false, block_reason := "", block_until := none,
                 trust_score := 0.3 }
      else r
    | none => r
  else
    let total_interactions := r.successful_blocks + r.failed_validations
    let r1 :=
      if 0 < total_interactions then
        let success_rate : ℚ :=
          (r.successful_blocks : ℚ) / (total_interactions : ℚ)
        { r with
          trust_score :=
            clamp01 (success_rate * 0.7 +
              min ((r.dos_attempts : ℚ) / 10) 0.3 * (-0.3)) }
      else r
    let idle_hours := (now - r1.last_seen) / 3600
    if idle_hours > 24 then
      { r1 with trust_score := r1.trust_score * 0.9 }
    else r1

/-- Mirrors `SecurityGuardian.update_peer_reputation`. -/
def update_peer_reputation (now : ℚ) (s : GuardianState) : GuardianState :=
  { s with
    peer_reputation :=
      s.peer_reputation.map (fun kv => (kv.1, updateReputationPeer now kv.2)) }

/-- Mirrors `SecurityGuardian.cleanup_expired_blocks`: despite its name it only
drops security events older than 30 days; `blocked_ips` is untouched. -/
def cleanup_expired_blocks (now : ℚ) (s : GuardianState) : GuardianState :=
  { s with
    security_events :=
      s.security_events.filter (fun e => now - e.timestamp < 30 * 24 * 3600) }

/-- Mirrors `SecurityGuardian.is_peer_trusted`. -/
def is_peer_trusted (s : GuardianState) (pid : String) : Bool :=
  match alookup s.peer_reputation pid with
  | none => false
  | some r => !r.blocked && s.min_trust_score ≤ r.trust_score

/-- One externally triggerable or cycle-internal operation of the
guardian; each carries the `utcnow` at which it runs. -/
inductive GuardianOp
  | registerPeer (pid ip : String)
  | recordSuccess (pid : String)
  | recordFailure (pid : String)
  | recordConnection (ip : String)
  | detectDos
  | detectSybil
  | detectEclipse
  | detectVdf
  | updateReputation
  | cleanupExpired
  deriving DecidableEq, Repr

/-- Dispatch one operation at time `now`. -/
def applyOp (now : ℚ) (op : GuardianOp) (s : GuardianState) : GuardianState :=
  match op with
  | .registerPeer pid ip => register_peer now s pid ip
  | .recordSuccess pid => record_successful_block now s pid
  | .recordFailure pid => record_failed_validation s pid
  | .recordConnection ip => record_connection_attempt now s ip
  | .detectDos => detect_dos_attacks now s
  | .detectSybil => detect_sybil_attacks now s
  | .detectEclipse => detect_eclipse_attacks now s
  | .detectVdf => detect_vdf_manipulation now s
  | .updateReputation => update_peer_reputation now s
  | .cleanupExpired => cleanup_expired_blocks now s

/-- Run a timed operation sequence from a state. -/
def runOps (s : GuardianState) : List (ℚ × GuardianOp) → GuardianState
  | [] => s
  | (t, op) :: rest => runOps (applyOp t op s) rest

/-- Every stored peer has its trust score inside [0, 1]. -/
def TrustInv (s : GuardianState) : Prop :=
  ∀ kv ∈ s.peer_reputation,
    0 ≤ kv.2.trust_score ∧ kv.2.trust_score ≤ 1

/-- Mirrors `SecurityGuardian.__init__` on a parsed configuration: empty
collections, thresholds from the config. -/
def initGuardian (dos_threshold : ℕ) (min_trust_score : ℚ)
    (blacklist_duration_minutes : ℚ) : GuardianState :=
  { dos_threshold := dos_threshold, min_trust_score := min_trust_score,
    blacklist_duration_minutes := blacklist_duration_minutes }

/-- Mirror of `@dataclass NetworkMetrics`. -/
structure NetworkMetrics where
  timestamp : ℚ
  connected_peers : ℕ
  total_bandwidth_mbps : ℚ
  avg_latency_ms : ℚ
  blocks_synced_per_minute : ℚ
  failed_connections : ℕ
  successful_connections : ℕ
  memory_usage_percent : ℚ
  disk_usage_percent : ℚ
  deriving DecidableEq, Repr

/-- The mutable state of a `NetworkBooster` instance together with the
three configuration values read in `__init__`. -/
structure BoosterState where
  max_peers : ℕ
  max_outbound : ℕ
  max_inbound : ℕ
  metrics_history : List NetworkMetrics := []
  peer_latencies : List (String × ℚ) := []
  throughput_stats : List (String × ℚ) := []
  congestion_detected : Bool := false
  deriving DecidableEq, Repr

/-- Python `d[k] = v` on an insertion-ordered dict. -/
def aset {β : Type} (m : List (String × β)) (k : String) (v : β) :
    List (String × β) :=
  if (alookup m k).isSome then aupdate m k (fun _ => v) else m ++ [(k, v)]

/-- Mirrors `NetworkBooster.record_peer_latency`. -/
def record_peer_latency (s : BoosterState) (pid : String) (latency_ms : ℚ) :
    BoosterState :=
  { s with peer_latencies := aset s.peer_latencies pid latency_ms }

/-- Mirrors `NetworkBooster.record_throughput`. -/
def record_throughput (s : BoosterState) (pid : String) (mbps : ℚ) :
    BoosterState :=
  { s with throughput_stats := aset s.throughput_stats pid mbps }

/-- Mirrors `NetworkBooster.calculate_bandwidth`. -/
def calculate_bandwidth (s : BoosterState) : ℚ :=
  (s.throughput_stats.map (fun kv => kv.2)).sum

/-- Mirrors `NetworkBooster.calculate_avg_latency`: explicitly returns `0.0` on an
empty latency table instead of dividing by zero. -/
def calculate_avg_latency (s : BoosterState) : ℚ :=
  if s.peer_latencies.isEmpty then 0
  else (s.peer_latencies.map (fun kv => kv.2)).sum / (s.peer_latencies.length : ℚ)

/-- Mirrors `NetworkBooster.calculate_avg_throughput`: explicitly returns `0.0` on
an empty throughput table instead of dividing by zero. -/
def calculate_avg_throughput (s : BoosterState) : ℚ :=
  if s.throughput_stats.isEmpty then 0
  else (s.throughput_stats.map (fun kv => kv.2)).sum /
    (s.throughput_stats.length : ℚ)

/-- Mirrors `NetworkBooster.calculate_block_rate` (placeholder estimate). -/
def calculate_block_rate (s : BoosterState) : ℚ :=
  (s.peer_latencies.length : ℚ) * 0.5

/-- The `NetworkMetrics` record assembled in `monitor_network_health`
(the memory/disk figures are the placeholder constants of the source). -/
def buildMetrics (now : ℚ) (s : BoosterState) : NetworkMetrics :=
  { timestamp := now,
    connected_peers := s.peer_latencies.length,
    total_bandwidth_mbps := calculate_bandwidth s,
    avg_latency_ms := calculate_avg_latency s,
    blocks_synced_per_minute := calculate_block_rate s,
    failed_connections := 0,
    successful_connections := s.peer_latencies.length,
    memory_usage_percent := 35,
    disk_usage_percent := 28 }

/-- Mirrors `NetworkBooster.monitor_network_health`: append a snapshot and keep
only the last 100 entries. -/
def monitor_network_health (now : ℚ) (s : BoosterState) : BoosterState :=
  let h := s.metrics_history ++ [buildMetrics now s]
  let h2 := if 100 < h.length then h.drop (h.length - 100) else h
  { s with metrics_history := h2 }

/-- The local `recent_metrics = self.metrics_history[-5:]` of
`detect_congestion`. -/
def congestionRecent (s : BoosterState) : List NetworkMetrics :=
  s.metrics_history.drop (s.metrics_history.length - 5)

/-- The local `avg_latency` of `detect_congestion`. -/
def congestionAvg (s : BoosterState) : ℚ :=
  ((congestionRecent s).map (fun m => m.avg_latency_ms)).sum /
    ((congestionRecent s).length : ℚ)

/-- Mirrors `NetworkBooster.detect_congestion`: no-op below 5 snapshots, then
hysteresis on the mean latency of the last 5 (set above 500, clear below
200, hold otherwise). -/
def detect_congestion (s : BoosterState) : BoosterState :=
  if s.metrics_history.length < 5 then s
  else if congestionAvg s > 500 then { s with congestion_detected := true }
  else if congestionAvg s < 200 then { s with congestion_detected := false }
  else s

/-- The dict returned by `optimize_block_propagation`. -/
structure PropagationPolicy where
  compression : Bool
  batch_size : ℕ
  priority : String
  backpressure : Bool
  deriving DecidableEq, Repr

/-- Mirrors `NetworkBooster.optimize_block_propagation`: the argument
`block_size_kb` is never read. -/
def optimize_block_propagation (s : BoosterState) (block_size_kb : ℕ) :
    PropagationPolicy :=
  if s.congestion_detected then
    { compression := true, batch_size := 10, priority := "critical_only",
      backpressure := true }
  else
    { compression := false, batch_size := 100, priority := "all",
      backpressure := false }

/-- The comparison used by `sorted(self.peer_latencies.items(),
key=lambda x: x[1])`: order entries by their latency value.  Python's
`sorted` is a stable sort; so is `List.insertionSort`. -/
def latLE (a b : String × ℚ) : Prop := a.2 ≤ b.2

instance latLE.decidableRel : DecidableRel latLE := fun a b =>
  inferInstanceAs (Decidable (a.2 ≤ b.2))

instance latLE.isTotal : IsTotal (String × ℚ) latLE :=
  ⟨fun a b => le_total a.2 b.2⟩

instance latLE.isTrans : IsTrans (String × ℚ) latLE :=
  ⟨fun _ _ _ h h2 => le_trans h h2⟩

/-- Mirrors `NetworkBooster.prune_poor_performers`: nothing to do while the table
fits in `max_outbound`; otherwise keep the `max_outbound` first entries of
the latency-sorted table. -/
def prune_poor_performers (s : BoosterState) : BoosterState :=
  if s.peer_latencies.length ≤ s.max_outbound then s
  else
    let sorted_peers := s.peer_latencies.insertionSort latLE
    { s with peer_latencies := sorted_peers.take s.max_outbound }

/-- Mirrors `NetworkBooster.optimize_peer_connections`: early return below 80% of
`max_peers`; prune above 90%.  (The `good_peers` selection in between is
computed only for logging and discarded.) -/
def optimize_peer_connections (s : BoosterState) : BoosterState :=
  if (s.peer_latencies.length : ℚ) < (s.max_peers : ℚ) * 0.8 then s
  else if (s.peer_latencies.length : ℚ) > (s.max_peers : ℚ) * 0.9 then
    prune_poor_performers s
  else s

/-- Mirrors `NetworkBooster.__init__` on a parsed configuration. -/
def initBooster (max_peers max_outbound max_inbound : ℕ) : BoosterState :=
  { max_peers := max_peers, max_outbound := max_outbound,
    max_inbound := max_inbound }

/-! Concrete instances used to instantiate the theorems below. -/

/-- A peer with one success and ten recorded DoS attempts. -/
def c1Peer : PeerReputation :=
  { peer_id := "p", ip_address := "1.1.1.1", successful_blocks := 1,
    dos_attempts := 10, first_seen := 0, last_seen := 0 }

/-- A peer with three successes, one failure and two DoS attempts. -/
def c1PeerW : PeerReputation :=
  { peer_id := "w", ip_address := "1.1.1.2", successful_blocks := 3,
    failed_validations := 1, dos_attempts := 2, first_seen := 0,
    last_seen := 0 }

/-- Register a peer, then record one failed validation. -/
def c2Ops : List (ℚ × GuardianOp) :=
  [(0, .registerPeer "p" "10.0.0.1"), (1, .recordFailure "p")]

/-- The record produced by `c2Ops`: one failure, trust `0.5 * 0.8`. -/
def c2Res : PeerReputation :=
  { peer_id := "p", ip_address := "10.0.0.1", trust_score := 0.5 * 0.8,
    failed_validations := 1, first_seen := 0, last_seen := 0 }

/-- Guardian state with 101 connection attempts from one IP at time 0. -/
def c3State : GuardianState :=
  { initGuardian 100 0.6 60 with
    connection_attempts := [("7.7.7.7", List.replicate 101 0)] }

/-- Guardian state with 99 connection attempts from one IP at time 0. -/
def c3StateSmall : GuardianState :=
  { initGuardian 100 0.6 60 with
    connection_attempts := [("7.7.7.7", List.replicate 99 0)] }

/-- A freshly registered peer at `ip` (trust 0.5, as at creation). -/
def sybPeer (pid ip : String) : PeerReputation :=
  { peer_id := pid, ip_address := ip, first_seen := 0, last_seen := 0 }

/-- Five fresh peers sharing one IP; all have trust `0.5 < 0.6`. -/
def c4State : GuardianState :=
  { initGuardian 100 0.6 60 with
    peer_reputation :=
      [("s1", sybPeer "s1" "3.3.3.3"), ("s2", sybPeer "s2" "3.3.3.3"),
       ("s3", sybPeer "s3" "3.3.3.3"), ("s4", sybPeer "s4" "3.3.3.3"),
       ("s5", sybPeer "s5" "3.3.3.3")] }

/-- A snapshot whose only relevant figure is its average latency. -/
def c5Snap (lat : ℚ) : NetworkMetrics :=
  { timestamp := 0, connected_peers := 0, total_bandwidth_mbps := 0,
    avg_latency_ms := lat, blocks_synced_per_minute := 0,
    failed_connections := 0, successful_connections := 0,
    memory_usage_percent := 35, disk_usage_percent := 28 }

/-- Booster state holding five snapshots at 600ms latency. -/
def c5State : BoosterState :=
  { initBooster 50 25 25 with
    metrics_history := List.replicate 5 (c5Snap 600) }

/-- Two peers with equal latency: "b" registered before "a". -/
def c6TieState : BoosterState :=
  { initBooster 2 1 1 with peer_latencies := [("b", 50), ("a", 50)] }

/-- Thirty peers with pairwise distinct latencies, registration order
scrambled with respect to latency.  The 25 lowest latencies are exactly
those `≤ 83`. -/
def c6Peers : List (String × ℚ) :=
  [("p01", 83), ("p02", 7), ("p03", 51), ("p04", 29), ("p05", 94),
   ("p06", 13), ("p07", 66), ("p08", 2), ("p09", 45), ("p10", 71),
   ("p11", 34), ("p12", 88), ("p13", 19), ("p14", 56), ("p15", 3),
   ("p16", 99), ("p17", 41), ("p18", 24), ("p19", 62), ("p20", 9),
   ("p21", 77), ("p22", 48), ("p23", 16), ("p24", 91), ("p25", 37),
   ("p26", 5), ("p27", 69), ("p28", 27), ("p29", 53), ("p30", 85)]

/-- Booster state at capacity: `max_peers = 30`, `max_outbound = 25`,
thirty peers of distinct latencies. -/
def c6BigState : BoosterState :=
  { initBooster 30 25 25 with peer_latencies := c6Peers }

/-- A registered peer whose `last_seen` is time 0. -/
def c8Peer : PeerReputation :=
  { peer_id := "q", ip_address := "2.2.2.2", first_seen := 0,
    last_seen := 0 }

/-- Guardian state holding exactly `c8Peer`. -/
def c8State : GuardianState :=
  { initGuardian 100 0.6 60 with peer_reputation := [("q", c8Peer)] }

/-! Helper lemmas about the association-list and set primitives. -/

theorem alookup_cons {β : Type} (kv : String × β) (m : List (String × β))
    (k : String) :
    alookup (kv :: m) k = if kv.1 = k then some kv.2 else alookup m k := by
  by_cases h : kv.1 = k <;> simp [alookup, List.find?_cons, h]

theorem aupdate_cons {β : Type} (kv : String × β) (m : List (String × β))
    (k : String) (f : β → β) :
    aupdate (kv :: m) k f =
      (if kv.1 = k then (kv.1, f kv.2) else kv) :: aupdate m k f := by
  by_cases h : kv.1 = k <;> simp [aupdate, h]

theorem alookup_aupdate_self {β : Type} (m : List (String × β)) (k : String)
    (f : β → β) : alookup (aupdate m k f) k = (alookup m k).map f := by
  induction m with
  | nil => rfl
  | cons kv m ih =>
    rw [aupdate_cons]
    by_cases h : kv.1 = k
    · simp [alookup_cons, h]
    · simp [alookup_cons, h, ih]

theorem alookup_aupdate_ne {β : Type} (m : List (String × β)) (k q : String)
    (f : β → β) (hq : q ≠ k) :
    alookup (aupdate m k f) q = alookup m q := by
  induction m with
  | nil => rfl
  | cons kv m ih =>
    rw [aupdate_cons]
    have h4 : ¬ k = q := fun e => hq e.symm
    by_cases h : kv.1 = k
    · have h2 : ¬ kv.1 = q := fun e => hq (e.symm.trans h)
      simp [alookup_cons, h, h2, h4, hq, ih]
    · by_cases h3 : kv.1 = q <;> simp [alookup_cons, h, h3, h4, hq, ih]

theorem mem_insertSet_self (l : List String) (x : String) :
    x ∈ insertSet l x := by
  unfold insertSet
  by_cases h : x ∈ l <;> simp [h]

/-- Invariant-preservation along a `foldl`. -/
theorem foldl_inv {σ α : Type} (P : σ → Prop) (f : σ → α → σ)
    (hf : ∀ s a, P s → P (f s a)) :
    ∀ (l : List α) (s : σ), P s → P (l.foldl f s) := by
  intro l
  induction l with
  | nil => intro s hs; exact hs
  | cons a l ih => intro s hs; exact ih (f s a) (hf s a hs)

theorem mul_mem01 {t c : ℚ} (ht0 : 0 ≤ t) (ht1 : t ≤ 1) (hc0 : 0 ≤ c)
    (hc1 : c ≤ 1) : 0 ≤ t * c ∧ t * c ≤ 1 :=
  ⟨mul_nonneg ht0 hc0,
    le_trans (mul_le_mul ht1 hc1 hc0 zero_le_one) (by norm_num)⟩

theorem clamp01_mem (x : ℚ) : 0 ≤ clamp01 x ∧ clamp01 x ≤ 1 :=
  ⟨le_max_left 0 _, max_le (by norm_num) (min_le_left 1 x)⟩

/-- In a duplicate-free list, if `p` occurs before `q` and `q` made it into
the first `k` entries, so did `p`. -/
theorem pair_sublist_take {α : Type} :
    ∀ (t : List α) (k : ℕ) {p q : α}, t.Nodup → List.Sublist [p, q] t →
      q ∈ t.take k → p ∈ t.take k := by
  intro t
  induction t with
  | nil => intro k p q _ _ hq; simp at hq
  | cons a t ih =>
    intro k p q hnd hsub hq
    cases k with
    | zero => simp at hq
    | succ k =>
      by_cases hpa : p = a
      · simp [hpa]
      · have hsub2 : List.Sublist [p, q] t := by
          cases hsub with
          | cons _ h => exact h
          | cons₂ _ h => exact absurd rfl hpa
        have hq2 : q = a ∨ q ∈ t.take k := by simpa using hq
        rcases hq2 with hqa | hq3
        · exfalso
          have hqt : q ∈ t := hsub2.subset (by simp)
          rw [hqa] at hqt
          exact (List.nodup_cons.mp hnd).1 hqt
        · have := ih k (List.nodup_cons.mp hnd).2 hsub2 hq3
          simp [this]

/-! Settling the claims. -/

/-- C7: the claim says a DoS-blocked IP leaves the blocked set once the
configured duration elapses.  The code has no such step: `block_ip`
discards its `duration` argument and `cleanup_expired_blocks` filters only
`security_events`, so a blocked IP stays in `blocked_ips` at every later
cleanup, as this theorem shows at the concrete blocked IP. -/
theorem blocked_ip_survives_cleanup (s : GuardianState) (t : ℚ)
    (ip reason : String) (dur : ℚ) :
    ip ∈ (cleanup_expired_blocks t (block_ip s ip reason dur)).blocked_ips ∧
    (cleanup_expired_blocks t (block_ip s ip reason dur)).blocked_ips =
      (block_ip s ip reason dur).blocked_ips := by
  refine ⟨?_, rfl⟩
  exact mem_insertSet_self s.blocked_ips ip

/-- C9: `optimize_block_propagation` depends only on the congestion flag
(the `block_size_kb` argument and all other state are ignored), returning
the compress/batch/priority/backpressure quadruple dictated by the flag. -/
theorem propagation_policy_pure (s1 s2 : BoosterState) (b1 b2 : ℕ)
    (hc : s1.congestion_detected = s2.congestion_detected) :
    optimize_block_propagation s1 b1 = optimize_block_propagation s2 b2 ∧
    (s1.congestion_detected = true →
      optimize_block_propagation s1 b1 =
        { compression := true, batch_size := 10, priority := "critical_only",
          backpressure := true }) ∧
    (s1.congestion_detected = false →
      optimize_block_propagation s1 b1 =
        { compression := false, batch_size := 100, priority := "all",
          backpressure := false }) := by
  refine ⟨?_, ?_, ?_⟩
  · rw [optimize_block_propagation, optimize_block_propagation, hc]
  · intro h; simp [optimize_block_propagation, h]
  · intro h; simp [optimize_block_propagation, h]

/-- C9 witness: both flag values at two different block sizes. -/
theorem propagation_policy_pure_witness :
    optimize_block_propagation (initBooster 50 25 25) 1 =
      optimize_block_propagation (initBooster 50 25 25) 999 ∧
    optimize_block_propagation
        { initBooster 50 25 25 with congestion_detected := true } 1 =
      { compression := true, batch_size := 10, priority := "critical_only",
        backpressure := true } :=
  ⟨(propagation_policy_pure (initBooster 50 25 25)
      (initBooster 50 25 25) 1 999 rfl).1,
   (propagation_policy_pure
      { initBooster 50 25 25 with congestion_detected := true }
      { initBooster 50 25 25 with congestion_detected := true }
      1 1 rfl).2.1 rfl⟩

/-- C10: with no latency samples `calculate_avg_latency` returns `0.0`
(and `calculate_avg_throughput` likewise with no throughput samples), so
the health snapshot of a peerless state reports `avg_latency_ms = 0`. -/
theorem avg_latency_empty_safe (s : BoosterState) (now : ℚ)
    (hlat : s.peer_latencies = []) (hthr : s.throughput_stats = []) :
    calculate_avg_latency s = 0 ∧ calculate_avg_throughput s = 0 ∧
    (buildMetrics now s).avg_latency_ms = 0 := by
  refine ⟨?_, ?_, ?_⟩ <;>
    simp [calculate_avg_latency, calculate_avg_throughput, buildMetrics,
      hlat, hthr]

/-- C10 witness: the freshly initialised booster state. -/
theorem avg_latency_empty_safe_witness :
    calculate_avg_latency (initBooster 50 25 25) = 0 ∧
    calculate_avg_throughput (initBooster 50 25 25) = 0 ∧
    (buildMetrics 0 (initBooster 50 25 25)).avg_latency_ms = 0 :=
  avg_latency_empty_safe (initBooster 50 25 25) 0 rfl rfl

/-- C5: congestion detection is a no-op with fewer than 5 snapshots;
with at least 5, writing `m` for the mean `avg_latency_ms` of the latest
five, the flag is set when `m > 500`, cleared when `m < 200`, and held at
its previous value when `200 ≤ m ≤ 500`. -/
theorem congestion_hysteresis (s : BoosterState) (m : ℚ)
    (hm : m = ((s.metrics_history.drop (s.metrics_history.length - 5)).map
        (fun x => x.avg_latency_ms)).sum / 5) :
    (s.metrics_history.length < 5 → detect_congestion s = s) ∧
    (5 ≤ s.metrics_history.length →
      (500 < m → (detect_congestion s).congestion_detected = true) ∧
      (m < 200 → (detect_congestion s).congestion_detected = false) ∧
      (200 ≤ m → m ≤ 500 →
        (detect_congestion s).congestion_detected =
          s.congestion_detected)) := by
  constructor
  · intro h; rw [detect_congestion, if_pos h]
  · intro h5
    have hnot : ¬ s.metrics_history.length < 5 := by omega
    have hlen : (congestionRecent s).length = 5 := by
      rw [congestionRecent, List.length_drop]; omega
    have havg : congestionAvg s = m := by
      rw [congestionAvg, hlen, hm, congestionRecent]
      norm_num
    refine ⟨?_, ?_, ?_⟩
    · intro hgt
      rw [detect_congestion, if_neg hnot, if_pos (by rw [havg]; exact hgt)]
    · intro hlt
      rw [detect_congestion, if_neg hnot,
        if_neg (by rw [havg]; exact not_lt.mpr (by linarith)),
        if_pos (by rw [havg]; exact hlt)]
    · intro hge hle
      rw [detect_congestion, if_neg hnot,
        if_neg (by rw [havg]; exact not_lt.mpr hle),
        if_neg (by rw [havg]; exact not_lt.mpr hge)]

/-- C5 witness: five snapshots at 600ms latency switch the flag on. -/
theorem congestion_hysteresis_witness :
    (5 : ℕ) ≤ c5State.metrics_history.length ∧
    (detect_congestion c5State).congestion_detected = true :=
  ⟨by simp [c5State, initBooster],
   ((congestion_hysteresis c5State 600 (by
      simp [c5State, initBooster, c5Snap, List.sum_replicate, nsmul_eq_mul]
      norm_num)).2 (by simp [c5State, initBooster])).1 (by norm_num)⟩

/-- C3: with the threshold at its default 100 and the attempt log holding
one IP, a run of DoS detection at 101 in-window attempts blocks the IP and
appends exactly one DoS event of critical severity; at 99 or fewer
attempts it neither blocks nor appends. -/
theorem dos_detection_spec (s : GuardianState) (now : ℚ) (ip : String)
    (tss : List ℚ) (hthr : s.dos_threshold = 100)
    (hconn : s.connection_attempts = [(ip, tss)])
    (hrecent : ∀ ts ∈ tss, now - ts < 60) :
    (tss.length = 101 →
      ip ∈ (detect_dos_attacks now s).blocked_ips ∧
      (detect_dos_attacks now s).security_events =
        s.security_events ++ [dosEvent now ip 101] ∧
      (dosEvent now ip 101).event_type = AttackType.dos ∧
      (dosEvent now ip 101).severity = ThreatLevel.critical) ∧
    (tss.length ≤ 99 →
      (detect_dos_attacks now s).blocked_ips = s.blocked_ips ∧
      (detect_dos_attacks now s).security_events = s.security_events) := by
  have hfold : detect_dos_attacks now s = dosStep now s (ip, tss) := by
    rw [detect_dos_attacks, hconn]; rfl
  have hfilter : tss.filter (fun ts => decide (now - ts < 60)) = tss :=
    List.filter_eq_self.mpr (fun a ha => decide_eq_true (hrecent a ha))
  constructor
  · intro h101
    rw [hfold]
    simp only [dosStep, hfilter, hthr, h101, block_ip]
    rw [if_pos (by norm_num)]
    exact ⟨mem_insertSet_self _ _, rfl, rfl, rfl⟩
  · intro h99
    rw [hfold]
    simp only [dosStep, hfilter, hthr]
    rw [if_neg (by omega)]
    exact ⟨rfl, rfl⟩

/-- C3 witness: 101 attempts at time 0 block the IP and log one event;
99 attempts leave the blocked set empty. -/
theorem dos_detection_spec_witness :
    "7.7.7.7" ∈ (detect_dos_attacks 0 c3State).blocked_ips ∧
    (detect_dos_attacks 0 c3State).security_events =
      [dosEvent 0 "7.7.7.7" 101] ∧
    (detect_dos_attacks 0 c3StateSmall).blocked_ips = [] := by
  have h1 := dos_detection_spec c3State 0 "7.7.7.7" (List.replicate 101 0)
    rfl rfl (by
      intro ts hts
      rw [List.eq_of_mem_replicate hts]
      norm_num)
  have h2 := dos_detection_spec c3StateSmall 0 "7.7.7.7"
    (List.replicate 99 0) rfl rfl (by
      intro ts hts
      rw [List.eq_of_mem_replicate hts]
      norm_num)
  have ha := h1.1 (by simp)
  have hb := h2.2 (by simp)
  exact ⟨ha.1, by simpa [c3State, initGuardian] using ha.2.1,
    by simpa [c3StateSmall, initGuardian] using hb.1⟩

/-- C1 counterexample: for a non-blocked peer with one success, no
failures and ten recorded DoS attempts, the recompute yields
`0.7*1 + min(10/10, 0.3)*(-0.3) = 0.61`, while the claimed formula
`0.7*1 - 0.3*min(10/10, 1.0)` clamped yields `0.4`: the source caps the
DoS penalty argument at 0.3, not at 1.0. -/
theorem reputation_formula_counterexample :
    c1Peer.blocked = false ∧
    c1Peer.successful_blocks + c1Peer.failed_validations = 1 ∧
    (updateReputationPeer 0 c1Peer).trust_score = 61/100 ∧
    clamp01 (0.7 * ((c1Peer.successful_blocks : ℚ) / 1) -
      0.3 * min ((c1Peer.dos_attempts : ℚ) / 10) 1) = 2/5 ∧
    (61 : ℚ)/100 ≠ 2/5 := by
  refine ⟨rfl, rfl, ?_, ?_, by norm_num⟩ <;>
    norm_num [c1Peer, updateReputationPeer, clamp01, min_def, max_def]

/-- C1 (amended): for every non-blocked peer seen within the last 24
hours with `n = successes + failures > 0`, the per-cycle recompute sets
`trust_score` to `0.7*(successes/n) - 0.3*min(dos_attempts/10, 0.3)`
clamped to [0,1] — i.e. the cap on the penalty argument is 0.3, not the
claimed 1.0. -/
theorem reputation_formula_amended (now : ℚ) (r : PeerReputation)
    (hb : r.blocked = false)
    (hn : 0 < r.successful_blocks + r.failed_validations)
    (hidle : (now - r.last_seen) / 3600 ≤ 24) :
    (updateReputationPeer now r).trust_score =
      clamp01 (0.7 * ((r.successful_blocks : ℚ) /
          ((r.successful_blocks : ℚ) + (r.failed_validations : ℚ))) -
        0.3 * min ((r.dos_attempts : ℚ) / 10) 0.3) := by
  have hcast : ((r.successful_blocks + r.failed_validations : ℕ) : ℚ) =
      (r.successful_blocks : ℚ) + (r.failed_validations : ℚ) := by
    push_cast; ring
  simp only [updateReputationPeer, hb, Bool.false_eq_true, if_false,
    if_pos hn, not_lt.mpr hidle]
  rw [hcast]
  congr 1
  ring

/-- C1 witness: a peer with 3 successes, 1 failure and 2 DoS attempts. -/
theorem reputation_formula_amended_witness :
    c1PeerW.blocked = false ∧
    0 < c1PeerW.successful_blocks + c1PeerW.failed_validations ∧
    (updateReputationPeer 0 c1PeerW).trust_score =
      clamp01 (0.7 * ((c1PeerW.successful_blocks : ℚ) /
          ((c1PeerW.successful_blocks : ℚ) +
            (c1PeerW.failed_validations : ℚ))) -
        0.3 * min ((c1PeerW.dos_attempts : ℚ) / 10) 0.3) :=
  ⟨rfl, by decide,
   reputation_formula_amended 0 c1PeerW rfl (by decide) (by
     show ((0 : ℚ) - c1PeerW.last_seen) / 3600 ≤ 24
     norm_num [c1PeerW])⟩

/-- C8 counterexample: recording a failed validation for a peer whose
stored `last_seen` is 0, at a current time of 100, leaves `last_seen` at
0: the source does not update `last_seen` on failure (it does so only on
success), contradicting the claimed update to the current time. -/
theorem record_failure_counterexample :
    (alookup (record_failed_validation c8State "q").peer_reputation
        "q").map (fun r => r.last_seen) = some 0 ∧
    (0 : ℚ) ≠ 100 := ⟨rfl, by norm_num⟩

/-- C8 (amended): recording a failed validation for a registered peer
increments `failed_validations` by exactly 1 and multiplies `trust_score`
by 0.8, leaving every other field of the record — `last_seen` included —
and the rest of the state unchanged. -/
theorem record_failure_amended (s : GuardianState) (pid : String)
    (r : PeerReputation) (h : alookup s.peer_reputation pid = some r) :
    alookup (record_failed_validation s pid).peer_reputation pid =
      some { r with failed_validations := r.failed_validations + 1,
                    trust_score := r.trust_score * 0.8 } ∧
    (∀ q, q ≠ pid →
      alookup (record_failed_validation s pid).peer_reputation q =
        alookup s.peer_reputation q) ∧
    (record_failed_validation s pid).blocked_ips = s.blocked_ips ∧
    (record_failed_validation s pid).security_events = s.security_events ∧
    (record_failed_validation s pid).connection_attempts =
      s.connection_attempts := by
  have hs : (alookup s.peer_reputation pid).isSome := by rw [h]; rfl
  have hrw : record_failed_validation s pid =
      { s with
        peer_reputation :=
          aupdate s.peer_reputation pid (fun r =>
            { r with failed_validations := r.failed_validations + 1,
                     trust_score := r.trust_score * 0.8 }) } := by
    unfold record_failed_validation
    rw [if_pos hs]
  rw [hrw]
  dsimp only
  refine ⟨?_, ?_, rfl, rfl, rfl⟩
  · rw [alookup_aupdate_self, h]
    rfl
  · intro q hq
    exact alookup_aupdate_ne _ _ _ _ hq

theorem keysInOrder_all_seen (l : List String) (a : String)
    (h : ∀ x ∈ l, x = a) : keysInOrder l [a] = [] := by
  induction l with
  | nil => rfl
  | cons x rest ih =>
    have hx : x = a := h x (by simp)
    rw [keysInOrder, if_pos (by simp [hx])]
    exact ih (fun y hy => h y (by simp [hy]))

theorem keysInOrder_const (l : List String) (a : String)
    (h : ∀ x ∈ l, x = a) (hne : l ≠ []) : keysInOrder l [] = [a] := by
  cases l with
  | nil => exact absurd rfl hne
  | cons x rest =>
    have hx : x = a := h x (by simp)
    rw [keysInOrder, if_neg (by simp)]
    rw [hx, keysInOrder_all_seen rest a (fun y hy => h y (by simp [hy]))]

/-- C4: in one Sybil-detection pass over a registry whose peers all share
one IP, with `k` registered peers below the trust minimum: if `k ≥ 5`,
exactly one warning Sybil event is appended and exactly the low-trust
peers get their trust multiplied by 0.5 (ids and all other fields kept);
if `k = 4`, the state is entirely unchanged. -/
theorem sybil_detection_spec (now : ℚ) (s : GuardianState) (ip0 : String)
    (hip : ∀ kv ∈ s.peer_reputation, kv.2.ip_address = ip0) (k : ℕ)
    (hk : k = (s.peer_reputation.filter
        (fun kv => decide (kv.2.trust_score < s.min_trust_score))).length) :
    (5 ≤ k →
      (detect_sybil_attacks now s).security_events =
        s.security_events ++ [sybilEvent now ip0 k] ∧
      (sybilEvent now ip0 k).event_type = AttackType.sybil ∧
      (sybilEvent now ip0 k).severity = ThreatLevel.warning ∧
      (detect_sybil_attacks now s).peer_reputation =
        s.peer_reputation.map (fun kv =>
          if kv.2.trust_score < s.min_trust_score then
            (kv.1, { kv.2 with trust_score := kv.2.trust_score * 0.5 })
          else kv) ∧
      (detect_sybil_attacks now s).blocked_ips = s.blocked_ips) ∧
    (k = 4 → detect_sybil_attacks now s = s) := by
  have hfc : s.peer_reputation.filter (suspiciousOn s.min_trust_score ip0) =
      s.peer_reputation.filter
        (fun kv => decide (kv.2.trust_score < s.min_trust_score)) := by
    refine List.filter_congr ?_
    intro kv hkv
    simp [suspiciousOn, hip kv hkv]
  have hdet : ∀ hne : s.peer_reputation ≠ [],
      detect_sybil_attacks now s = sybilStep now s ip0 := by
    intro hne
    rw [detect_sybil_attacks,
      keysInOrder_const _ ip0
        (by intro x hx
            obtain ⟨kv, hkv, hkv2⟩ := List.mem_map.mp hx
            rw [← hkv2]; exact hip kv hkv)
        (by simpa using hne)]
    rfl
  have hne5 : ∀ n, k = n → 0 < n → s.peer_reputation ≠ [] := by
    intro n hn hnpos he
    rw [he] at hk
    simp [hn] at hk
    omega
  constructor
  · intro h5
    have hne := hne5 k rfl (by omega)
    rw [hdet hne]
    rw [sybilStep]
    rw [if_pos (by rw [hfc, ← hk]; exact h5)]
    refine ⟨?_, rfl, rfl, ?_, rfl⟩
    · rw [hfc, ← hk]
    · show s.peer_reputation.map _ = s.peer_reputation.map _
      refine List.map_congr_left ?_
      intro kv hkv
      by_cases ht : kv.2.trust_score < s.min_trust_score
      · rw [if_pos (by simp [suspiciousOn, hip kv hkv, ht]), if_pos ht]
      · rw [if_neg (by simp [suspiciousOn, hip kv hkv, ht]), if_neg ht]
  · intro h4
    have hne := hne5 4 h4 (by omega)
    rw [hdet hne]
    rw [sybilStep]
    rw [if_neg (by rw [hfc, ← hk, h4]; omega)]

/-- C4 witness: five fresh peers (trust 0.5 < 0.6) behind one IP. -/
theorem sybil_detection_spec_witness :
    (detect_sybil_attacks 0 c4State).security_events =
      [sybilEvent 0 "3.3.3.3" 5] ∧
    (detect_sybil_attacks 0 c4State).peer_reputation =
      c4State.peer_reputation.map (fun kv =>
        if kv.2.trust_score < c4State.min_trust_score then
          (kv.1, { kv.2 with trust_score := kv.2.trust_score * 0.5 })
        else kv) := by
  have h := sybil_detection_spec 0 c4State "3.3.3.3" (by decide) 5 (by
    norm_num [c4State, sybPeer, initGuardian, List.filter])
  have h5 := h.1 (by norm_num)
  exact ⟨by simpa [c4State, initGuardian] using h5.1, h5.2.2.2.1⟩

/-- C8 witness: the single registered peer `c8Peer`. -/
theorem record_failure_amended_witness :
    alookup c8State.peer_reputation "q" = some c8Peer ∧
    alookup (record_failed_validation c8State "q").peer_reputation "q" =
      some { c8Peer with
             failed_validations := c8Peer.failed_validations + 1,
             trust_score := c8Peer.trust_score * 0.8 } :=
  ⟨rfl, (record_failure_amended c8State "q" c8Peer rfl).1⟩

/-- C6 counterexample: two peers with equal latency 50, "b" registered
before "a".  Peer count 2 exceeds 90% of `max_peers = 2`, and with
`max_outbound = 1` pruning keeps `[("b", 50)]` — the earlier-registered
peer — whereas the claimed identifier-ascending tie-break would keep
`[("a", 50)]`.  Python's `sorted(..., key=lambda x: x[1])` is stable, so
ties are broken by dict insertion order, not by peer identifier. -/
theorem prune_tiebreak_counterexample :
    (optimize_peer_connections c6TieState).peer_latencies = [("b", 50)] ∧
    ("a" : String) ≠ "b" ∧
    (optimize_peer_connections c6TieState).peer_latencies ≠
      [("a", 50)] := by
  have h1 : optimize_peer_connections c6TieState =
      prune_poor_performers c6TieState := by
    rw [optimize_peer_connections,
      if_neg (by norm_num [c6TieState, initBooster]),
      if_pos (by norm_num [c6TieState, initBooster])]
  have h2 : (prune_poor_performers c6TieState).peer_latencies =
      (c6TieState.peer_latencies.insertionSort latLE).take
        c6TieState.max_outbound := by
    rw [prune_poor_performers, if_neg (by norm_num [c6TieState, initBooster])]
  have h3 : (c6TieState.peer_latencies.insertionSort latLE).take
      c6TieState.max_outbound = [("b", 50)] := by decide
  rw [h1, h2, h3]
  exact ⟨rfl, by decide, by decide⟩

/-- C6 (amended): when the peer count exceeds 90% of `max_peers` (and
exceeds `max_outbound`, the registry being duplicate-free), pruning keeps
exactly `max_outbound` peers of the active set, ordered ascending by
latency, forming a lowest-latency selection: every peer of strictly lower
latency than a kept peer is kept, and on equal latency ties are broken by
registration (insertion) order — the earlier-registered peer is
preferred — not by peer identifier ascending. -/
theorem prune_keeps_lowest (s : BoosterState)
    (h9 : (s.max_peers : ℚ) * 0.9 < (s.peer_latencies.length : ℚ))
    (hout : s.max_outbound < s.peer_latencies.length)
    (hnd : s.peer_latencies.Nodup) :
    (optimize_peer_connections s).peer_latencies.length = s.max_outbound ∧
    (optimize_peer_connections s).peer_latencies.Nodup ∧
    (∀ p ∈ (optimize_peer_connections s).peer_latencies,
      p ∈ s.peer_latencies) ∧
    (∀ p ∈ (optimize_peer_connections s).peer_latencies,
      ∀ q ∈ s.peer_latencies, q.2 < p.2 →
        q ∈ (optimize_peer_connections s).peer_latencies) ∧
    (∀ p q : String × ℚ, p.2 = q.2 →
      List.Sublist [p, q] s.peer_latencies →
      q ∈ (optimize_peer_connections s).peer_latencies →
      p ∈ (optimize_peer_connections s).peer_latencies) ∧
    (optimize_peer_connections s).peer_latencies.Sorted latLE := by
  have hmn : (0 : ℚ) ≤ (s.max_peers : ℚ) := Nat.cast_nonneg s.max_peers
  have h8 : ¬ ((s.peer_latencies.length : ℚ) < (s.max_peers : ℚ) * 0.8) := by
    intro hcon
    linarith
  have hopt : optimize_peer_connections s = prune_poor_performers s := by
    rw [optimize_peer_connections, if_neg h8, if_pos h9]
  have hpr : (prune_poor_performers s).peer_latencies =
      (s.peer_latencies.insertionSort latLE).take s.max_outbound := by
    rw [prune_poor_performers, if_neg (by omega)]
  rw [hopt, hpr]
  have hperm : (s.peer_latencies.insertionSort latLE).Perm
      s.peer_latencies := List.perm_insertionSort latLE s.peer_latencies
  have hsorted : (s.peer_latencies.insertionSort latLE).Sorted latLE :=
    List.sorted_insertionSort latLE s.peer_latencies
  have htlen : (s.peer_latencies.insertionSort latLE).length =
      s.peer_latencies.length := hperm.length_eq
  have htnd : (s.peer_latencies.insertionSort latLE).Nodup :=
    hperm.nodup_iff.mpr hnd
  refine ⟨?_, ?_, ?_, ?_, ?_, ?_⟩
  · rw [List.length_take, htlen]
    omega
  · exact htnd.sublist (List.take_sublist _ _)
  · intro p hp
    exact hperm.subset (List.take_subset _ _ hp)
  · intro p hp q hq hlt
    by_contra hqn
    have hqt : q ∈ s.peer_latencies.insertionSort latLE :=
      hperm.mem_iff.mpr hq
    rw [← List.take_append_drop s.max_outbound
      (s.peer_latencies.insertionSort latLE)] at hqt
    have hqd : q ∈ (s.peer_latencies.insertionSort latLE).drop
        s.max_outbound := (List.mem_append.mp hqt).resolve_left hqn
    have hpw : ((s.peer_latencies.insertionSort latLE).take s.max_outbound ++
        (s.peer_latencies.insertionSort latLE).drop
          s.max_outbound).Pairwise latLE := by
      rw [List.take_append_drop]
      exact hsorted
    have hle : latLE p q := (List.pairwise_append.mp hpw).2.2 p hp q hqd
    exact absurd hle (not_le.mpr hlt)
  · intro p q hpq hsub hq
    have hpair : ([p, q] : List (String × ℚ)).Pairwise latLE := by
      refine List.Pairwise.cons ?_ (List.pairwise_singleton latLE q)
      intro x hx
      rw [List.mem_singleton] at hx
      rw [hx]
      exact le_of_eq hpq
    have hsub2 : List.Sublist [p, q]
        (s.peer_latencies.insertionSort latLE) :=
      List.sublist_insertionSort hpair hsub
    exact pair_sublist_take _ s.max_outbound htnd hsub2 hq
  · exact hsorted.sublist (List.take_sublist _ _)

/-- C6 witness: 30 peers of distinct latencies at `max_peers = 30`,
`max_outbound = 25`: exactly 25 peers remain, all drawn from the
registry, and all with latency at most 83 — the 25 lowest of the 30. -/
theorem prune_keeps_lowest_witness :
    (optimize_peer_connections c6BigState).peer_latencies.length = 25 ∧
    (∀ p ∈ (optimize_peer_connections c6BigState).peer_latencies,
      p ∈ c6Peers) ∧
    (∀ p ∈ (optimize_peer_connections c6BigState).peer_latencies,
      p.2 ≤ 83) := by
  have h := prune_keeps_lowest c6BigState
    (by norm_num [c6BigState, initBooster, c6Peers])
    (by norm_num [c6BigState, initBooster, c6Peers])
    (by decide)
  refine ⟨h.1, fun p hp => h.2.2.1 p hp, ?_⟩
  have heq : (optimize_peer_connections c6BigState).peer_latencies =
      (c6Peers.insertionSort latLE).take 25 := by
    rw [optimize_peer_connections,
      if_neg (by norm_num [c6BigState, initBooster, c6Peers]),
      if_pos (by norm_num [c6BigState, initBooster, c6Peers]),
      prune_poor_performers,
      if_neg (by norm_num [c6BigState, initBooster, c6Peers])]
    rfl
  rw [heq]
  decide

/-! Preservation of the trust-score range invariant by every operation. -/

theorem trustInv_of_peers_eq {s s' : GuardianState}
    (h : s'.peer_reputation = s.peer_reputation) (hs : TrustInv s) :
    TrustInv s' := by
  intro kv hkv
  exact hs kv (h ▸ hkv)

theorem trustInv_aupdate (s : GuardianState) (k : String)
    (f : PeerReputation → PeerReputation)
    (hf : ∀ r, 0 ≤ r.trust_score ∧ r.trust_score ≤ 1 →
      0 ≤ (f r).trust_score ∧ (f r).trust_score ≤ 1)
    (hs : TrustInv s) :
    ∀ kv ∈ aupdate s.peer_reputation k f,
      0 ≤ kv.2.trust_score ∧ kv.2.trust_score ≤ 1 := by
  intro kv hkv
  rw [aupdate] at hkv
  obtain ⟨kv0, hkv0, heq⟩ := List.mem_map.mp hkv
  by_cases h : kv0.1 = k
  · rw [if_pos h] at heq
    rw [← heq]
    exact hf kv0.2 (hs kv0 hkv0)
  · rw [if_neg h] at heq
    rw [← heq]
    exact hs kv0 hkv0

theorem trustInv_register (now : ℚ) (s : GuardianState) (pid ip : String)
    (h : TrustInv s) : TrustInv (register_peer now s pid ip) := by
  rw [register_peer]
  split
  · exact h
  · intro kv hkv
    rcases List.mem_append.mp hkv with h1 | h2
    · exact h kv h1
    · rw [List.mem_singleton] at h2
      rw [h2]
      constructor <;> norm_num

theorem trustInv_record_success (now : ℚ) (s : GuardianState) (pid : String)
    (h : TrustInv s) : TrustInv (record_successful_block now s pid) := by
  rw [record_successful_block]
  split
  · intro kv hkv
    dsimp only at hkv
    exact trustInv_aupdate s pid
      (fun r => { r with successful_blocks := r.successful_blocks + 1,
                         last_seen := now })
      (fun r hr => hr) h kv hkv
  · exact h

theorem trustInv_record_failure (s : GuardianState) (pid : String)
    (h : TrustInv s) : TrustInv (record_failed_validation s pid) := by
  rw [record_failed_validation]
  split
  · intro kv hkv
    dsimp only at hkv
    exact trustInv_aupdate s pid _
      (fun r hr => mul_mem01 hr.1 hr.2 (by norm_num) (by norm_num)) h kv hkv
  · exact h

theorem trustInv_record_connection (now : ℚ) (s : GuardianState)
    (ip : String) (h : TrustInv s) :
    TrustInv (record_connection_attempt now s ip) := by
  rw [record_connection_attempt]
  split
  · exact trustInv_of_peers_eq rfl h
  · exact trustInv_of_peers_eq rfl h

theorem dosStep_peers (now : ℚ) (s : GuardianState) (e : String × List ℚ) :
    (dosStep now s e).peer_reputation = s.peer_reputation := by
  simp only [dosStep, block_ip]
  split <;> rfl

theorem trustInv_detect_dos (now : ℚ) (s : GuardianState) (h : TrustInv s) :
    TrustInv (detect_dos_attacks now s) := by
  rw [detect_dos_attacks]
  exact foldl_inv TrustInv (dosStep now)
    (fun s' a hs' => trustInv_of_peers_eq (dosStep_peers now s' a) hs')
    s.connection_attempts s h

theorem trustInv_sybilStep (now : ℚ) (s : GuardianState) (ip : String)
    (h : TrustInv s) : TrustInv (sybilStep now s ip) := by
  rw [sybilStep]
  split
  · intro kv hkv
    dsimp only at hkv
    obtain ⟨kv0, hkv0, heq⟩ := List.mem_map.mp hkv
    by_cases hc : suspiciousOn s.min_trust_score ip kv0 = true
    · rw [if_pos hc] at heq
      rw [← heq]
      exact mul_mem01 (h kv0 hkv0).1 (h kv0 hkv0).2 (by norm_num)
        (by norm_num)
    · rw [if_neg hc] at heq
      rw [← heq]
      exact h kv0 hkv0
  · exact h

theorem trustInv_detect_sybil (now : ℚ) (s : GuardianState)
    (h : TrustInv s) : TrustInv (detect_sybil_attacks now s) := by
  rw [detect_sybil_attacks]
  exact foldl_inv TrustInv (sybilStep now)
    (fun s' a hs' => trustInv_sybilStep now s' a hs') _ s h

theorem trustInv_detect_eclipse (now : ℚ) (s : GuardianState)
    (h : TrustInv s) : TrustInv (detect_eclipse_attacks now s) := by
  rw [detect_eclipse_attacks]
  refine foldl_inv TrustInv _ ?_ s.peer_reputation s h
  intro s' a hs'
  dsimp only
  split
  · intro kv hkv
    dsimp only at hkv
    exact trustInv_aupdate s' a.1 _
      (fun r hr => mul_mem01 hr.1 hr.2 (by norm_num) (by norm_num))
      hs' kv hkv
  · exact hs'

theorem trustInv_detect_vdf (now : ℚ) (s : GuardianState)
    (h : TrustInv s) : TrustInv (detect_vdf_manipulation now s) := by
  rw [detect_vdf_manipulation]
  refine foldl_inv TrustInv _ ?_ s.peer_reputation s h
  intro s' a hs'
  dsimp only
  split
  · intro kv hkv
    dsimp only at hkv
    exact trustInv_aupdate s' a.1 _
      (fun r hr => mul_mem01 hr.1 hr.2 (by norm_num) (by norm_num))
      hs' kv hkv
  · exact hs'

theorem updateReputationPeer_mem (now : ℚ) (r : PeerReputation)
    (h0 : 0 ≤ r.trust_score) (h1 : r.trust_score ≤ 1) :
    0 ≤ (updateReputationPeer now r).trust_score ∧
      (updateReputationPeer now r).trust_score ≤ 1 := by
  rw [updateReputationPeer]
  cases hbb : r.blocked with
  | false =>
    simp only [Bool.false_eq_true, if_false]
    by_cases hn : 0 < r.successful_blocks + r.failed_validations
    · rw [if_pos hn]
      dsimp only
      by_cases hi : (now - r.last_seen) / 3600 > 24
      · rw [if_pos hi]
        exact mul_mem01 (clamp01_mem _).1 (clamp01_mem _).2 (by norm_num)
          (by norm_num)
      · rw [if_neg hi]
        exact clamp01_mem _
    · rw [if_neg hn]
      by_cases hi : (now - r.last_seen) / 3600 > 24
      · rw [if_pos hi]
        exact mul_mem01 h0 h1 (by norm_num) (by norm_num)
      · rw [if_neg hi]
        exact ⟨h0, h1⟩
  | true =>
    rw [if_pos rfl]
    cases hbu : r.block_until with
    | none => exact ⟨h0, h1⟩
    | some bu =>
      dsimp only
      by_cases hb2 : now > bu
      · rw [if_pos hb2]
        exact ⟨by norm_num, by norm_num⟩
      · rw [if_neg hb2]
        exact ⟨h0, h1⟩

theorem trustInv_update_reputation (now : ℚ) (s : GuardianState)
    (h : TrustInv s) : TrustInv (update_peer_reputation now s) := by
  rw [update_peer_reputation]
  intro kv hkv
  dsimp only at hkv
  obtain ⟨kv0, hkv0, heq⟩ := List.mem_map.mp hkv
  rw [← heq]
  exact updateReputationPeer_mem now kv0.2 (h kv0 hkv0).1 (h kv0 hkv0).2

theorem trustInv_cleanup (now : ℚ) (s : GuardianState) (h : TrustInv s) :
    TrustInv (cleanup_expired_blocks now s) :=
  trustInv_of_peers_eq rfl h

theorem trustInv_applyOp (now : ℚ) (op : GuardianOp) (s : GuardianState)
    (h : TrustInv s) : TrustInv (applyOp now op s) := by
  cases op with
  | registerPeer pid ip => exact trustInv_register now s pid ip h
  | recordSuccess pid => exact trustInv_record_success now s pid h
  | recordFailure pid => exact trustInv_record_failure s pid h
  | recordConnection ip => exact trustInv_record_connection now s ip h
  | detectDos => exact trustInv_detect_dos now s h
  | detectSybil => exact trustInv_detect_sybil now s h
  | detectEclipse => exact trustInv_detect_eclipse now s h
  | detectVdf => exact trustInv_detect_vdf now s h
  | updateReputation => exact trustInv_update_reputation now s h
  | cleanupExpired => exact trustInv_cleanup now s h

theorem trustInv_runOps :
    ∀ (ops : List (ℚ × GuardianOp)) (s : GuardianState),
      TrustInv s → TrustInv (runOps s ops) := by
  intro ops
  induction ops with
  | nil => intro s h; exact h
  | cons top rest ih =>
    intro s h
    exact ih (applyOp top.1 top.2 s) (trustInv_applyOp top.1 top.2 s h)

/-- C2: starting from an empty registry, after any timed sequence of
operations (registration, success/failure recording, connection logging,
all four detectors with their Sybil/eclipse/VDF trust penalties, the
reputation recompute with idle decay, event cleanup), every stored peer's
`trust_score` lies within [0, 1]; and a freshly registered peer starts at
exactly 0.5. -/
theorem trust_score_invariant :
    (∀ (dos : ℕ) (mts bl : ℚ) (ops : List (ℚ × GuardianOp)) (pid : String)
        (r : PeerReputation),
      alookup (runOps (initGuardian dos mts bl) ops).peer_reputation pid =
        some r → 0 ≤ r.trust_score ∧ r.trust_score ≤ 1) ∧
    (∀ (now : ℚ) (s : GuardianState) (pid ip : String),
      alookup s.peer_reputation pid = none →
      (alookup (register_peer now s pid ip).peer_reputation pid).map
        (fun r => r.trust_score) = some 0.5) := by
  constructor
  · intro dos mts bl ops pid r hlook
    have hinv : TrustInv (runOps (initGuardian dos mts bl) ops) :=
      trustInv_runOps ops (initGuardian dos mts bl) (by intro kv hkv; simp [initGuardian] at hkv)
    unfold alookup at hlook
    obtain ⟨kv, hfind, hsnd⟩ := Option.map_eq_some'.mp hlook
    have hmem := List.mem_of_find?_eq_some hfind
    rw [← hsnd]
    exact hinv kv hmem
  · intro now s pid ip hnone
    have hiss : ¬ (alookup s.peer_reputation pid).isSome := by
      rw [hnone]; simp
    rw [register_peer, if_neg hiss]
    have happ : alookup (s.peer_reputation ++
        [(pid, { peer_id := pid, ip_address := ip, first_seen := now,
                 last_seen := now : PeerReputation })]) pid =
        some { peer_id := pid, ip_address := ip, first_seen := now,
               last_seen := now : PeerReputation } := by
      unfold alookup
      rw [List.find?_append]
      unfold alookup at hnone
      have hf1 : s.peer_reputation.find? (fun kv => decide (kv.1 = pid)) =
          none := by
        cases hfe : s.peer_reputation.find? (fun kv => decide (kv.1 = pid))
        · rfl
        · rw [hfe] at hnone; simp at hnone
      rw [hf1]
      simp [List.find?]
    rw [happ]
    rfl

/-- C2 witness: register a peer, record one failed validation; the stored
trust is `0.5 * 0.8`, inside [0, 1], and registration starts at 0.5. -/
theorem trust_score_invariant_witness :
    alookup (runOps (initGuardian 100 0.6 60) c2Ops).peer_reputation "p" =
      some c2Res ∧
    (0 ≤ c2Res.trust_score ∧ c2Res.trust_score ≤ 1) ∧
    alookup (initGuardian 100 0.6 60).peer_reputation "p" = none ∧
    (alookup (register_peer 0 (initGuardian 100 0.6 60) "p"
        "10.0.0.1").peer_reputation "p").map (fun r => r.trust_score) =
      some 0.5 := by
  have hlook : alookup
      (runOps (initGuardian 100 0.6 60) c2Ops).peer_reputation "p" =
      some c2Res := rfl
  exact ⟨hlook, trust_score_invariant.1 100 0.6 60 c2Ops "p" c2Res hlook,
    rfl, trust_score_invariant.2 0 (initGuardian 100 0.6 60) "p"
      "10.0.0.1" rfl⟩

end Axiom
